import Mathlib

/-!
Verification of the beetune LaTeX rendering pipeline: a shallow embedding of
`beetune/formatters/resume_formatter.py` and `beetune/renderers/latex_converter.py`
(section parsing, contact extraction, section formatting, structural validation,
and the two-pass compiler driver), together with theorems settling the spec claims.

Python strings are modelled as Lean `String`/`List Char` (ASCII fragment: the
whitespace and word-character classes are the ASCII parts of Python's, which is
what all inputs of interest use).  Python `re` patterns are transcribed into a
small backtracking regex engine (`RE`, `reRun`) whose greedy/leftmost search
order mirrors CPython's backtracking order for the pattern shapes that occur in
the source (character-class quantifiers, optional groups, alternation of
literals, word boundaries, end anchors).
-/

namespace Beetune

/-- ASCII model of Python whitespace (`str.strip`, regex `\s`). -/
def pyIsSpace (c : Char) : Bool :=
  c = ' ' || c = '\t' || c = '\n' || c = '\r' || c = '\x0b' || c = '\x0c'

/-- `str.strip()` on a character list. -/
def pyStripL (cs : List Char) : List Char :=
  ((cs.dropWhile pyIsSpace).reverse.dropWhile pyIsSpace).reverse

/-- `str.strip()`. -/
def pyStrip (s : String) : String := String.mk (pyStripL s.data)

/-- Split a character list at every character satisfying `p`
(Python `str.split(sep)` semantics: always at least one piece, empty pieces kept). -/
def splitOnPred (p : Char → Bool) : List Char → List (List Char)
  | [] => [[]]
  | c :: cs =>
    match splitOnPred p cs with
    | [] => [[]]
    | s :: rest => if p c then [] :: s :: rest else (c :: s) :: rest

/-- Python `str.split(sep)` for a one-character separator. -/
def splitOnChar (sep : Char) (cs : List Char) : List (List Char) :=
  splitOnPred (fun c => c = sep) cs

/-- Inverse of `splitOnChar`: interleave the pieces with the separator. -/
def joinOnChar (sep : Char) : List (List Char) → List Char
  | [] => []
  | [s] => s
  | s :: s2 :: rest => s ++ sep :: joinOnChar sep (s2 :: rest)

/-- Python `resume_text.split("\n")`. -/
def splitLines (s : String) : List String :=
  (splitOnChar '\n' s.data).map String.mk

/-- Python `"\n".join(...)`. -/
def joinNL (ls : List String) : String :=
  String.mk (joinOnChar '\n' (ls.map String.data))

/-- Python `str.split()` (split on whitespace runs, dropping empty pieces). -/
def pyWords (cs : List Char) : List (List Char) :=
  (splitOnPred pyIsSpace cs).filter (fun w => w ≠ [])

/-- `List.isPrefixOf` as a Bool on characters. -/
def isPrefixL : List Char → List Char → Bool
  | [], _ => true
  | _ :: _, [] => false
  | p :: ps, c :: cs => p = c && isPrefixL ps cs

/-- Python `pat in s` (substring containment) on character lists. -/
def isSubstrL (pat : List Char) : List Char → Bool
  | [] => isPrefixL pat []
  | c :: cs => isPrefixL pat (c :: cs) || isSubstrL pat cs

/-- Python `pat in s` on strings. -/
def containsSub (s pat : String) : Bool := isSubstrL pat.data s.data

/-- Python `s.find(pat)`: index of first occurrence, `-1` if absent. -/
def pyFindL (pat : List Char) : List Char → Int
  | [] => if isPrefixL pat [] then 0 else -1
  | c :: cs =>
    if isPrefixL pat (c :: cs) then 0
    else
      let r := pyFindL pat cs
      if r < 0 then -1 else r + 1

/-- Python `str.lower()` (ASCII). -/
def lowerL (cs : List Char) : List Char := cs.map Char.toLower

/-- Python `str.lower()` on strings. -/
def lowerStr (s : String) : String := String.mk (lowerL s.data)

/-- ASCII model of regex `\w`. -/
def isWordChar (c : Char) : Bool := c.isAlphanum || c = '_'

/-- Regular expressions as they occur in the source: character classes with
greedy `*`/`+` quantifiers, sequencing, alternation, greedy `?`, word
boundaries `\b` and the end anchor `$`. -/
inductive RE where
  | eps
  | cls (p : Char → Bool)
  | seq (a b : RE)
  | alt (a b : RE)
  | opt (a : RE)
  | star (p : Char → Bool)
  | plus (p : Char → Bool)
  | wordB
  | dollar

/-- `\b`: word/non-word transition between the previous character and the next. -/
def atBoundary (pv : Option Char) (cs : List Char) : Bool :=
  (match pv with | some c => isWordChar c | none => false)
    != (match cs with | c :: _ => isWordChar c | [] => false)

/-- Greedy Kleene star over a character class, continuation-passing:
try consuming one more character first, backtrack to stopping. -/
def starRun (p : Char → Bool) :
    Option Char → List Char → (Option Char → List Char → Option (List Char)) →
    Option (List Char)
  | pv, [], k => k pv []
  | pv, c :: cs, k =>
    if p c then
      match starRun p (some c) cs k with
      | some r => some r
      | none => k pv (c :: cs)
    else k pv (c :: cs)

/-- Backtracking matcher in continuation style.  `pv` is the character just
before the current position (for `\b`); the continuation receives the rest of
the input after the part matched so far.  Success order = CPython backtracking
order (greedy quantifiers, left alternative first). -/
def reRun : RE → Option Char → List Char → (Option Char → List Char → Option (List Char)) →
    Option (List Char)
  | .eps, pv, cs, k => k pv cs
  | .cls p, pv, cs, k =>
    match cs with
    | [] => none
    | c :: rest => if p c then k (some c) rest else none
  | .seq a b, pv, cs, k => reRun a pv cs (fun pv2 cs2 => reRun b pv2 cs2 k)
  | .alt a b, pv, cs, k =>
    match reRun a pv cs k with
    | some r => some r
    | none => reRun b pv cs k
  | .opt a, pv, cs, k =>
    match reRun a pv cs k with
    | some r => some r
    | none => k pv cs
  | .star p, pv, cs, k => starRun p pv cs k
  | .plus p, pv, cs, k =>
    match cs with
    | [] => none
    | c :: rest => if p c then starRun p (some c) rest k else none
  | .wordB, pv, cs, k => if atBoundary pv cs then k pv cs else none
  | .dollar, pv, cs, k => if cs = [] || cs = ['\n'] then k pv cs else none

/-- `re.match(r, s)`: does `r` match a prefix of `cs`? -/
def reMatchStart (r : RE) (cs : List Char) : Bool :=
  (reRun r none cs (fun _ rest => some rest)).isSome

/-- `re.search`: scan start positions left to right; return `(suffix at the
match position, rest after the match)` of the first match. -/
def reSearchAux (r : RE) : Option Char → List Char → Option (List Char × List Char)
  | pv, cs =>
    match reRun r pv cs (fun _ rest => some rest) with
    | some rest => some (cs, rest)
    | none =>
      match cs with
      | [] => none
      | c :: cs2 => reSearchAux r (some c) cs2

/-- `re.search(r, s)` as a Bool. -/
def reTest (r : RE) (cs : List Char) : Bool := (reSearchAux r none cs).isSome

/-- `re.search(r, s).group()`: the text of the first match. -/
def reSearchGroup (r : RE) (cs : List Char) : Option (List Char) :=
  match reSearchAux r none cs with
  | some (att, rest) => some (att.take (att.length - rest.length))
  | none => none

/-- A literal string as a regex. -/
def lit (s : String) : RE :=
  s.data.foldr (fun c r => RE.seq (RE.cls (fun x => x = c)) r) RE.eps

/-- Sequence a list of regexes. -/
def seqs (rs : List RE) : RE := rs.foldr RE.seq RE.eps

/-! ## `beetune/formatters/resume_formatter.py` -/

/-- `LaTeXStyle` enum (`MODERN/CLASSIC/MINIMAL/ACADEMIC`). -/
inductive LaTeXStyle where
  | modern
  | classic
  | minimal
  | academic
deriving DecidableEq

/-- One entry of `ResumeFormatter.LATEX_TEMPLATES`. -/
structure LatexTemplate where
  documentclass : String
  packages : List String
  geometry : String
  colors : String
  section_format : String

/-- `ResumeFormatter.LATEX_TEMPLATES`: a dict keyed by style.  The dict has no
entry for `ACADEMIC` (looking it up raises `KeyError`), modelled as `none`. -/
def LATEX_TEMPLATES : LaTeXStyle → Option LatexTemplate
  | .modern => some
      { documentclass := "\\documentclass[11pt,a4paper]\x7barticle\x7d"
        packages :=
          [ "\\usepackage[utf8]\x7binputenc\x7d"
          , "\\usepackage[T1]\x7bfontenc\x7d"
          , "\\usepackage\x7bgeometry\x7d"
          , "\\usepackage\x7btitlesec\x7d"
          , "\\usepackage\x7benumitem\x7d"
          , "\\usepackage\x7bhyperref\x7d"
          , "\\usepackage\x7bxcolor\x7d"
          , "\\usepackage\x7bfontawesome5\x7d" ]
        geometry := "\\geometry\x7btop=1in, bottom=1in, left=0.75in, right=0.75in\x7d"
        colors := "\\definecolor\x7bprimarycolor\x7d\x7bRGB\x7d\x7b0, 102, 204\x7d"
        section_format := "\\titleformat\x7b\\section\x7d\x7b\\large\\bfseries\\color\x7bprimarycolor\x7d\x7d\x7b\x7d\x7b0em\x7d\x7b\x7d[\\titlerule]" }
  | .classic => some
      { documentclass := "\\documentclass[11pt,a4paper]\x7barticle\x7d"
        packages :=
          [ "\\usepackage[utf8]\x7binputenc\x7d"
          , "\\usepackage[T1]\x7bfontenc\x7d"
          , "\\usepackage\x7bgeometry\x7d"
          , "\\usepackage\x7benumitem\x7d" ]
        geometry := "\\geometry\x7btop=1in, bottom=1in, left=1in, right=1in\x7d"
        colors := ""
        section_format := "" }
  | .minimal => some
      { documentclass := "\\documentclass[10pt,a4paper]\x7barticle\x7d"
        packages :=
          [ "\\usepackage[utf8]\x7binputenc\x7d"
          , "\\usepackage\x7bgeometry\x7d"
          , "\\usepackage\x7benumitem\x7d" ]
        geometry := "\\geometry\x7btop=0.75in, bottom=0.75in, left=0.75in, right=0.75in\x7d"
        colors := ""
        section_format := "\\renewcommand\x7b\\section\x7d[1]\x7b\\vspace\x7b0.5em\x7d\\textbf\x7b\\large #1\x7d\\vspace\x7b0.25em\x7d\\hrule\\vspace\x7b0.25em\x7d\x7d" }
  | .academic => none

/-- Result dict of `ResumeFormatter.extract_contact_info`. -/
structure ContactInfo where
  name : String
  email : String
  phone : String
  linkedin : String
  github : String
  location : String
deriving DecidableEq

/-- Regex `\b[A-Za-z0-9._%+-]+@[A-Za-z0-9.-]+\.[A-Z|a-z]{2,}\b` (email). -/
def emailRE : RE :=
  seqs
    [ RE.wordB
    , RE.plus (fun c => c.isAlphanum || c = '.' || c = '_' || c = '%' || c = '+' || c = '-')
    , RE.cls (fun c => c = '@')
    , RE.plus (fun c => c.isAlphanum || c = '.' || c = '-')
    , RE.cls (fun c => c = '.')
    , RE.cls (fun c => c.isAlpha || c = '|')
    , RE.cls (fun c => c.isAlpha || c = '|')
    , RE.star (fun c => c.isAlpha || c = '|')
    , RE.wordB ]

/-- Separator class `[\-\s\.]` of the phone regex. -/
def phoneSep (c : Char) : Bool := c = '-' || pyIsSpace c || c = '.'

/-- Regex `[\+]?[1-9]?[\-\s\.]?\(?[0-9]{3}\)?[\-\s\.]?[0-9]{3}[\-\s\.]?[0-9]{4}` (phone). -/
def phoneRE : RE :=
  seqs
    [ RE.opt (RE.cls (fun c => c = '+'))
    , RE.opt (RE.cls (fun c => '1' ≤ c && c ≤ '9'))
    , RE.opt (RE.cls phoneSep)
    , RE.opt (RE.cls (fun c => c = '('))
    , RE.cls Char.isDigit, RE.cls Char.isDigit, RE.cls Char.isDigit
    , RE.opt (RE.cls (fun c => c = ')'))
    , RE.opt (RE.cls phoneSep)
    , RE.cls Char.isDigit, RE.cls Char.isDigit, RE.cls Char.isDigit
    , RE.opt (RE.cls phoneSep)
    , RE.cls Char.isDigit, RE.cls Char.isDigit, RE.cls Char.isDigit, RE.cls Char.isDigit ]

/-- Regex `linkedin\.com/in/[\w\-]+`. -/
def linkedinRE : RE :=
  RE.seq (lit "linkedin.com/in/") (RE.plus (fun c => isWordChar c || c = '-'))

/-- Regex `github\.com/[\w\-]+`. -/
def githubRE : RE :=
  RE.seq (lit "github.com/") (RE.plus (fun c => isWordChar c || c = '-'))

/-- One iteration of the `for line in lines` loop of `extract_contact_info`. -/
def contactStep (ci : ContactInfo) (rawLine : String) : ContactInfo :=
  let line := pyStripL rawLine.data
  let lower := lowerL line
  let ci1 :=
    match reSearchGroup emailRE line with
    | some m => if ci.email = "" then { ci with email := String.mk m } else ci
    | none => ci
  let ci2 :=
    match reSearchGroup phoneRE line with
    | some m => if ci1.phone = "" then { ci1 with phone := String.mk m } else ci1
    | none => ci1
  let ci3 :=
    if isSubstrL "linkedin".data lower && ci2.linkedin = "" then
      match reSearchGroup linkedinRE lower with
      | some m => { ci2 with linkedin := String.mk m }
      | none => ci2
    else ci2
  let ci4 :=
    if isSubstrL "github".data lower && ci3.github = "" then
      match reSearchGroup githubRE lower with
      | some m => { ci3 with github := String.mk m }
      | none => ci3
    else ci3
  if ci4.name = "" && line ≠ [] &&
      !(["@", "phone", "email", "linkedin", "github"].any
        (fun x => isSubstrL x.data lower)) &&
      (pyWords line).length ≤ 4 then
    { ci4 with name := String.mk line }
  else ci4

/-- `ResumeFormatter.extract_contact_info`: scan the first 10 lines. -/
def extract_contact_info (resume_text : String) : ContactInfo :=
  ((splitLines resume_text).take 10).foldl contactStep
    { name := "", email := "", phone := "", linkedin := "", github := "", location := "" }

/-- Tail `\s*:?\s*$` shared by all heading patterns. -/
def headingTail : List RE :=
  [RE.star pyIsSpace, RE.opt (RE.cls (fun c => c = ':')), RE.star pyIsSpace, RE.dollar]

/-- `(?:word\s+)?` (an optional word followed by whitespace). -/
def optWordWs (w : String) : RE := RE.opt (RE.seq (lit w) (RE.plus pyIsSpace))

/-- `section_patterns` of `parse_resume_sections`, transcribed in source order
(matched case-insensitively against the stripped line, so the literals are
lowercase and the input is lowercased before matching). -/
def section_patterns : List (RE × String) :=
  [ (seqs ([RE.star pyIsSpace, optWordWs "professional", optWordWs "work",
      lit "experience"] ++ headingTail), "experience")
  , (seqs ([RE.star pyIsSpace, optWordWs "technical", lit "skill",
      RE.opt (RE.cls (fun c => c = 's'))] ++ headingTail), "skills")
  , (seqs ([RE.star pyIsSpace, lit "education"] ++ headingTail), "education")
  , (seqs ([RE.star pyIsSpace, optWordWs "professional", lit "summary"] ++ headingTail),
      "summary")
  , (seqs ([RE.star pyIsSpace, lit "project", RE.opt (RE.cls (fun c => c = 's'))] ++
      headingTail), "projects")
  , (seqs ([RE.star pyIsSpace, lit "certification", RE.opt (RE.cls (fun c => c = 's'))] ++
      headingTail), "certifications")
  , (seqs ([RE.star pyIsSpace, lit "achievement", RE.opt (RE.cls (fun c => c = 's'))] ++
      headingTail), "achievements")
  , (seqs ([RE.star pyIsSpace, lit "publication", RE.opt (RE.cls (fun c => c = 's'))] ++
      headingTail), "publications") ]

/-- Does a raw line match one of the heading patterns (after stripping,
case-insensitively)?  Returns the canonical section name of the first match. -/
def headingOf (line : String) : Option String :=
  (section_patterns.find? (fun pr => reMatchStart pr.1 (lowerL (pyStripL line.data)))).map
    Prod.snd

/-- Python dict as an insertion-ordered association list. -/
abbrev Dict := List (String × String)

/-- `d[k] = v`: overwrite in place if the key exists, else append. -/
def dictInsert (d : Dict) (k v : String) : Dict :=
  if d.any (fun p => p.1 = k) then d.map (fun p => if p.1 = k then (k, v) else p)
  else d ++ [(k, v)]

/-- Dict lookup. -/
def lookupD (k : String) : Dict → Option String
  | [] => none
  | p :: d => if p.1 = k then some p.2 else lookupD k d

/-- `sections[current_section] = "\n".join(current_content).strip()`, guarded by
`if current_content:`. -/
def flushSection (d : Dict) (cur : String) (acc : List String) : Dict :=
  if acc.isEmpty then d else dictInsert d cur (pyStrip (joinNL acc))

/-- The `for line in lines` loop of `parse_resume_sections` plus the final flush. -/
def parseLoop (d : Dict) (cur : String) (acc : List String) : List String → Dict
  | [] => flushSection d cur acc
  | l :: ls =>
    match headingOf l with
    | some nm => parseLoop (flushSection d cur acc) nm [] ls
    | none => parseLoop d cur (acc ++ [l]) ls

/-- `ResumeFormatter.parse_resume_sections`. -/
def parse_resume_sections (resume_text : String) : Dict :=
  parseLoop [] "header" [] (splitLines resume_text)

/-- Spec-side decomposition of the line list at recognized headings: the lines
before the first heading, and for each heading line its raw trailing segment
(heading line, canonical name, following non-heading lines). -/
def segs : List String → List String × List (String × String × List String)
  | [] => ([], [])
  | l :: ls =>
    match headingOf l with
    | some nm => ([], (l, nm, (segs ls).1) :: (segs ls).2)
    | none => (l :: (segs ls).1, (segs ls).2)

/-- Spec-side flushing of the decomposed segments into the section dict. -/
def blocksFold (d : Dict) : List (String × String × List String) → Dict
  | [] => d
  | b :: bs => blocksFold (flushSection d b.2.1 b.2.2) bs

/-- `ResumeFormatter.generate_latex_header`.  `none` models the `KeyError`
raised by the template lookup when the style has no template. -/
def generate_latex_header (contact_info : ContactInfo) (style : LaTeXStyle) :
    Option String :=
  (LATEX_TEMPLATES style).map (fun template =>
    let header1 : List String :=
      [template.documentclass, ""] ++ template.packages ++ ["", template.geometry, ""]
    let header2 := if template.colors ≠ "" then header1 ++ [template.colors, ""] else header1
    let header3 :=
      if template.section_format ≠ "" then header2 ++ [template.section_format, ""]
      else header2
    let header4 := header3 ++
      [ "\\setlength\x7b\\parindent\x7d\x7b0pt\x7d"
      , "\\setlength\x7b\\parskip\x7d\x7b0.5em\x7d"
      , ""
      , "\\begin\x7bdocument\x7d"
      , "" ]
    let header5 :=
      if contact_info.name ≠ "" then
        header4 ++
          [ (if style = .modern then
              "\\centerline\x7b\\huge\\textbf\x7b" ++ contact_info.name ++ "\x7d\x7d"
            else
              "\\begin\x7bcenter\x7d\\textbf\x7b\\Large " ++ contact_info.name ++
                "\x7d\\end\x7bcenter\x7d")
          , "" ]
      else header4
    let contact_parts :=
      [contact_info.email, contact_info.phone, contact_info.linkedin,
        contact_info.github].filter (fun s => s ≠ "")
    let header6 :=
      if contact_parts ≠ [] then
        header5 ++
          [ "\\centerline\x7b" ++ String.intercalate " $\\bullet$ " contact_parts ++ "\x7d"
          , "" ]
      else header5
    joinNL header6)

/-- The itemize-open directive emitted by the formatters. -/
def itemizeOpenStr : String := "\\begin\x7bitemize\x7d[leftmargin=1em]"

/-- The itemize-close directive emitted by the formatters. -/
def itemizeCloseStr : String := "\\end\x7bitemize\x7d"

/-- `f"\textbf{{{s}}}"`. -/
def emphTok (s : String) : String := "\\textbf\x7b" ++ s ++ "\x7d"

/-- The stripped non-empty lines of a section (`clean_lines` of
`_format_skills_section` / `_format_education_section`). -/
def cleanLines (content : String) : List String :=
  ((splitLines content).map pyStrip).filter (fun l => l ≠ "")

/-- `ResumeFormatter._format_skills_section`. -/
def format_skills_section (content : String) : String :=
  match cleanLines content with
  | [l] =>
    if containsSub l "," && !containsSub l ":" then
      String.intercalate ", "
        (((((splitOnChar ',' l.data).map (fun t => String.mk (pyStripL t)))).filter
            (fun s => s ≠ "")).map emphTok)
    else String.intercalate " $\\bullet$ " [l]
  | cl => String.intercalate " $\\bullet$ " cl

/-- Keywords that get a line emphasized in `_format_education_section`. -/
def eduKeywords : List String := ["bachelor", "master", "phd", "university", "college"]

/-- `ResumeFormatter._format_education_section`. -/
def format_education_section (content : String) : String :=
  String.intercalate "\n\n"
    ((cleanLines content).map (fun line =>
      if eduKeywords.any (fun w => containsSub (lowerStr line) w) then emphTok line
      else line))

/-- Regex `\d{4}` (four consecutive digits). -/
def fourDigits : RE :=
  seqs [RE.cls Char.isDigit, RE.cls Char.isDigit, RE.cls Char.isDigit, RE.cls Char.isDigit]

/-- `"|" in line or re.search(r"\d{4}", line)`: the job-header heuristic of
`_format_experience_section`. -/
def isJobHeaderLine (line : List Char) : Bool :=
  line.contains '|' || reTest fourDigits line

/-- Wrap collected experience bullet items in an itemize block (empty: nothing). -/
def expFlush (items : List String) : List String :=
  if items = [] then [] else itemizeOpenStr :: items ++ [itemizeCloseStr]

/-- The outer-loop body of `_format_experience_section` when not collecting
bullet points after a job header. -/
def expNormal (out : List String) (line : List Char) : List String × Option (List String) :=
  if line = [] then (out, none)
  else if isJobHeaderLine line && !isPrefixL ['•'] line then
    (out ++ ["\\textbf\x7b" ++ String.mk line ++ "\x7d"], some [])
  else if isPrefixL ['•'] line then
    (out ++ ["\\item " ++ String.mk (pyStripL (line.drop 1))], none)
  else (out ++ [String.mk line], none)

/-- One line of `_format_experience_section` as a fold step.  The state's second
component is `some items` while the inner `while` loop collects bullet points
after a job header; the inner loop's `break` re-processes the line in the outer
loop, which is `expNormal`. -/
def expStep (st : List String × Option (List String)) (rawLine : String) :
    List String × Option (List String) :=
  let line := pyStripL rawLine.data
  match st.2 with
  | some items =>
    if isPrefixL ['•'] line then
      (st.1, some (items ++ ["\\item " ++ String.mk (pyStripL (line.drop 1))]))
    else if line ≠ [] && !isJobHeaderLine line then
      (st.1, some (items ++ ["\\item " ++ String.mk line]))
    else expNormal (st.1 ++ expFlush items) line
  | none => expNormal st.1 line

/-- `ResumeFormatter._format_experience_section`. -/
def format_experience_section (content : String) : String :=
  let st := (splitLines content).foldl expStep ([], none)
  joinNL (st.1 ++ (match st.2 with | some items => expFlush items | none => []))

/-- One line of `_format_generic_section` as a fold step.  The state's second
component is the `in_itemize` flag. -/
def genericStep (st : List String × Bool) (rawLine : String) : List String × Bool :=
  let line := pyStripL rawLine.data
  if isPrefixL ['•'] line || isPrefixL ['-'] line then
    let st1 := if !st.2 then (st.1 ++ [itemizeOpenStr], true) else st
    (st1.1 ++ ["\\item " ++ String.mk (pyStripL (line.drop 1))], true)
  else
    let st1 := if st.2 then (st.1 ++ [itemizeCloseStr], false) else st
    if line ≠ [] then (st1.1 ++ [String.mk line], st1.2) else st1

/-- The `formatted_lines` list produced by `_format_generic_section`. -/
def genericOutLines (content : String) : List String :=
  let st := (splitLines content).foldl genericStep ([], false)
  if st.2 then st.1 ++ [itemizeCloseStr] else st.1

/-- `ResumeFormatter._format_generic_section`. -/
def format_generic_section (content : String) : String :=
  joinNL (genericOutLines content)

/-- `ResumeFormatter._format_projects_section` (delegates to the generic rule). -/
def format_projects_section (content : String) : String :=
  format_generic_section content

/-- Output lines of `_format_generic_section` tagged by which rule emitted them,
to distinguish the list directives the formatter itself emits from content
lines that happen to equal them textually. -/
inductive GenLine where
  | openItemize
  | closeItemize
  | item (s : String)
  | plain (s : String)
deriving DecidableEq

/-- Render a tagged generic-formatter line back to its output string. -/
def renderGenLine : GenLine → String
  | .openItemize => itemizeOpenStr
  | .closeItemize => itemizeCloseStr
  | .item s => "\\item " ++ s
  | .plain s => s

/-- `genericStep`, instrumented with `GenLine` tags. -/
def genericStepT (st : List GenLine × Bool) (rawLine : String) : List GenLine × Bool :=
  let line := pyStripL rawLine.data
  if isPrefixL ['•'] line || isPrefixL ['-'] line then
    let st1 := if !st.2 then (st.1 ++ [GenLine.openItemize], true) else st
    (st1.1 ++ [GenLine.item (String.mk (pyStripL (line.drop 1)))], true)
  else
    let st1 := if st.2 then (st.1 ++ [GenLine.closeItemize], false) else st
    if line ≠ [] then (st1.1 ++ [GenLine.plain (String.mk line)], st1.2) else st1

/-- `genericOutLines`, instrumented with `GenLine` tags. -/
def genericTagged (content : String) : List GenLine :=
  let st := (splitLines content).foldl genericStepT ([], false)
  if st.2 then st.1 ++ [GenLine.closeItemize] else st.1

/-- `ResumeFormatter.format_section_content`: dispatch by section kind. -/
def format_section_content (section_name : String) (content : String) : String :=
  if pyStrip content = "" then ""
  else
    let c := pyStrip content
    if section_name = "experience" then format_experience_section c
    else if section_name = "skills" then format_skills_section c
    else if section_name = "education" then format_education_section c
    else if section_name = "projects" then format_projects_section c
    else format_generic_section c

/-! ## `beetune/renderers/latex_converter.py` -/

/-- `LaTeXValidationResult`. -/
structure LaTeXValidationResult where
  is_valid : Bool
  missing_elements : List String
  warnings : List String
deriving DecidableEq

/-- `re.search(r"\\documentclass", content)` (a literal pattern: substring test). -/
def hasDocclass (content : String) : Bool :=
  isSubstrL "\\documentclass".data content.data

/-- `re.search(r"\\begin{document}", content)`. -/
def hasBeginDoc (content : String) : Bool :=
  isSubstrL "\\begin\x7bdocument\x7d".data content.data

/-- `re.search(r"\\end{document}", content)`. -/
def hasEndDoc (content : String) : Bool :=
  isSubstrL "\\end\x7bdocument\x7d".data content.data

/-- `marker.*marker` with `re.DOTALL`: two occurrences of the marker. -/
def dupRE (marker : String) : RE :=
  seqs [lit marker, RE.star (fun _ => true), lit marker]

/-- `[^\\]%.*\\` with `re.DOTALL`. -/
def unescapedPercentRE : RE :=
  seqs [RE.cls (fun c => c ≠ '\\'), RE.cls (fun c => c = '%'),
    RE.star (fun _ => true), RE.cls (fun c => c = '\\')]

/-- `re.search(r"\\begin{(\w+)}(?!.*\\end{\1})", content, re.DOTALL)`: some
`\begin{w}` (maximal word run followed by `}`) with no `\end{w}` after it. -/
def unmatchedEnv : List Char → Bool
  | [] => false
  | c :: cs =>
    (if isPrefixL "\\begin\x7b".data (c :: cs) then
      let after := (c :: cs).drop 7
      let w := after.takeWhile isWordChar
      w ≠ [] && isPrefixL ['\x7d'] (after.drop w.length) &&
        !isSubstrL ("\\end\x7b".data ++ w ++ ['\x7d']) (after.drop (w.length + 1))
    else false) || unmatchedEnv cs

/-- `\\begin{itemize}.*\[.*\]` without `re.DOTALL` (`.` excludes newline). -/
def itemizeOptionsRE : RE :=
  seqs [lit "\\begin\x7bitemize\x7d", RE.star (fun c => c ≠ '\n'), lit "[",
    RE.star (fun c => c ≠ '\n'), lit "]"]

/-- `UnifiedLatexConverter.validate_latex_structure`. -/
def validate_latex_structure (content : String) : LaTeXValidationResult :=
  let missing_elements :=
    (if !hasDocclass content then
      ["Missing Document class declaration (\\\\documentclass)"] else []) ++
    (if !hasBeginDoc content then
      ["Missing Document begin (\\\\begin\x7bdocument\x7d)"] else []) ++
    (if !hasEndDoc content then
      ["Missing Document end (\\\\end\x7bdocument\x7d)"] else [])
  let doc_class_pos := pyFindL "\\documentclass".data content.data
  let begin_doc_pos := pyFindL "\\begin\x7bdocument\x7d".data content.data
  let warnings :=
    (if reTest (dupRE "\\begin\x7bdocument\x7d") content.data then
      ["Multiple document beginnings detected"] else []) ++
    (if reTest (dupRE "\\end\x7bdocument\x7d") content.data then
      ["Multiple document endings detected"] else []) ++
    (if reTest unescapedPercentRE content.data then
      ["Potential unescaped percent sign in content"] else []) ++
    (if unmatchedEnv content.data then
      ["Unmatched begin/end environment pairs"] else []) ++
    (if doc_class_pos > begin_doc_pos && doc_class_pos ≠ -1 && begin_doc_pos ≠ -1 then
      ["Document class should appear before \\begin\x7bdocument\x7d"] else []) ++
    (if reTest (lit "\\geometry\x7b") content.data &&
        !containsSub content "\\usepackage\x7bgeometry\x7d" then
      ["geometry package needed for \\geometry command"] else []) ++
    (if reTest (RE.alt (lit "\\color\x7b") (lit "\\definecolor")) content.data &&
        !containsSub content "\\usepackage\x7bxcolor\x7d" then
      ["xcolor package needed for color commands"] else []) ++
    (if reTest (RE.alt (lit "\\href\x7b") (lit "\\url\x7b")) content.data &&
        !containsSub content "\\usepackage\x7bhyperref\x7d" then
      ["hyperref package needed for links"] else []) ++
    (if reTest itemizeOptionsRE content.data &&
        !containsSub content "\\usepackage\x7benumitem\x7d" then
      ["enumitem package recommended for itemize options"] else [])
  { is_valid := missing_elements.isEmpty
    missing_elements := missing_elements
    warnings := warnings }

/-- UTF-8 encoding of a character list (Python `str.encode("utf-8")`). -/
def utf8Bytes : List Char → List Nat
  | [] => []
  | c :: cs =>
    let n := c.toNat
    (if n < 0x80 then [n]
     else if n < 0x800 then [0xC0 + n / 64, 0x80 + n % 64]
     else if n < 0x10000 then [0xE0 + n / 4096, 0x80 + n / 64 % 64, 0x80 + n % 64]
     else [0xF0 + n / 262144, 0x80 + n / 4096 % 64, 0x80 + n / 64 % 64, 0x80 + n % 64])
      ++ utf8Bytes cs

/-- Standard base64 alphabet. -/
def b64Char (n : Nat) : Char :=
  if n < 26 then Char.ofNat ('A'.toNat + n)
  else if n < 52 then Char.ofNat ('a'.toNat + n - 26)
  else if n < 62 then Char.ofNat ('0'.toNat + n - 52)
  else if n = 62 then '+' else '/'

/-- Base64 encode a byte list with padding (Python `base64.b64encode`). -/
def b64Chunks : List Nat → List Char
  | [] => []
  | [b1] => [b64Char (b1 / 4), b64Char (b1 % 4 * 16), '=', '=']
  | [b1, b2] => [b64Char (b1 / 4), b64Char (b1 % 4 * 16 + b2 / 16), b64Char (b2 % 16 * 4), '=']
  | b1 :: b2 :: b3 :: rest =>
    b64Char (b1 / 4) :: b64Char (b1 % 4 * 16 + b2 / 16) ::
      b64Char (b2 % 16 * 4 + b3 / 64) :: b64Char (b3 % 64) :: b64Chunks rest

/-- `base64.b64encode(content.encode("utf-8")).decode("utf-8")`. -/
def b64OfString (s : String) : String := String.mk (b64Chunks (utf8Bytes s.data))

/-- `LaTeXCompilationResult`. -/
structure LaTeXCompilationResult where
  success : Bool
  tex_base64 : String
  pdf_base64 : Option String
  log_output : String
  error_message : Option String
deriving DecidableEq

/-- Outcome of one `subprocess.run(["pdflatex", ...])` invocation, supplied by
the environment: normal completion with a return code and captured streams, a
`subprocess.TimeoutExpired`, or any other exception. -/
inductive PassOutcome where
  | completed (returncode : Int) (stdout stderr : String)
  | timedOut
  | faulted (msg : String)

/-- The external environment a `compile_latex` call runs against: per-pass
process outcomes, the log file's content after each pass (if it exists), an
optional fault while writing the source file, and the output artifact state. -/
structure CompilerWorld where
  passOutcome : Nat → PassOutcome
  logAfter : Nat → Option String
  writeFault : Option String
  pdfExists : Bool
  pdfBytes : List Nat

/-- Observable events of one `compile_latex` call, in order: structure
validation, creation/removal of the `tempfile.TemporaryDirectory` scratch area,
and each compiler invocation. -/
inductive Ev where
  | validated
  | scratchCreated
  | passRun (n : Nat)
  | scratchRemoved
deriving DecidableEq

/-- Result of the `for pass_num in range(1, 3)` loop. -/
inductive LoopResult where
  | ok (log : String)
  | failedPass (n : Nat) (log : String) (stderr : String)
  | timedOutAt (n : Nat) (log : String)
  | faultedAt (n : Nat) (log : String) (msg : String)

/-- The compilation loop: run the listed passes in order, reading the log after
each completed pass (keeping the previous content if the log file is absent),
and stop at the first non-zero exit, timeout, or fault. -/
def runPasses (w : CompilerWorld) : List Nat → String → LoopResult × List Ev
  | [], logC => (.ok logC, [])
  | n :: ns, logC =>
    match w.passOutcome n with
    | .completed rc _ err =>
      let log2 := (w.logAfter n).getD logC
      if rc ≠ 0 then (.failedPass n log2 err, [.passRun n])
      else
        let r := runPasses w ns log2
        (r.1, .passRun n :: r.2)
    | .timedOut => (.timedOutAt n logC, [.passRun n])
    | .faulted m => (.faultedAt n logC m, [.passRun n])

/-- `UnifiedLatexConverter.compile_latex`, parameterized by the environment.
The `with tempfile.TemporaryDirectory()` block is modelled by the
`scratchCreated`/`scratchRemoved` events (the context manager removes the
directory on every exit, and the `except` clauses catch `TimeoutExpired` and
`Exception` inside the block).  Returns the result and the event trace. -/
def compile_latex (w : CompilerWorld) (content : String) (validate_structure : Bool) :
    LaTeXCompilationResult × List Ev :=
  let valEvs := if validate_structure then [Ev.validated] else []
  if validate_structure && !(validate_latex_structure content).is_valid then
    ({ success := false, tex_base64 := "", pdf_base64 := none, log_output := "",
       error_message := some ("Invalid LaTeX structure: " ++
         String.intercalate "; " (validate_latex_structure content).missing_elements) },
      valEvs)
  else
    match w.writeFault with
    | some m =>
      ({ success := false, tex_base64 := "", pdf_base64 := none, log_output := "",
         error_message := some ("Unexpected error during LaTeX compilation: " ++ m) },
        valEvs ++ [Ev.scratchCreated, Ev.scratchRemoved])
    | none =>
      let tex := b64OfString content
      let pr := runPasses w [1, 2] ""
      let evs := valEvs ++ Ev.scratchCreated :: pr.2 ++ [Ev.scratchRemoved]
      match pr.1 with
      | .ok logC =>
        if w.pdfExists then
          ({ success := true, tex_base64 := tex,
             pdf_base64 := some (String.mk (b64Chunks w.pdfBytes)),
             log_output := logC, error_message := none }, evs)
        else
          ({ success := false, tex_base64 := tex, pdf_base64 := none, log_output := logC,
             error_message :=
               some "PDF file was not generated despite successful compilation" }, evs)
      | .failedPass n logC err =>
        ({ success := false, tex_base64 := tex, pdf_base64 := none, log_output := logC,
           error_message := some ("LaTeX compilation error on pass " ++ toString n ++
             ": " ++ err) }, evs)
      | .timedOutAt _ logC =>
        ({ success := false, tex_base64 := tex, pdf_base64 := none, log_output := logC,
           error_message := some "LaTeX compilation timed out after 60 seconds" }, evs)
      | .faultedAt _ logC m =>
        ({ success := false, tex_base64 := tex, pdf_base64 := none, log_output := logC,
           error_message := some ("Unexpected error during LaTeX compilation: " ++ m) },
          evs)

/-! ## Auxiliary definitions used by the theorems -/

/-- `1` for `true`, `0` for `false` (open-list depth carried by `in_itemize`). -/
def flagNat (b : Bool) : Nat := if b then 1 else 0

/-- Depth scan over tagged generic-formatter output: `none` if a close
directive appears at depth 0, else the final depth. -/
def scanBalT : List GenLine → Nat → Option Nat
  | [], d => some d
  | .openItemize :: gs, d => scanBalT gs (d + 1)
  | .closeItemize :: gs, d => if d = 0 then none else scanBalT gs (d - 1)
  | .item _ :: gs, d => scanBalT gs d
  | .plain _ :: gs, d => scanBalT gs d

/-- A document source missing only the `\end{document}` marker. -/
def valSampleNoEnd : String :=
  "\\documentclass\x7barticle\x7d\n\\begin\x7bdocument\x7d\nhello"

/-- `valSampleNoEnd` with a duplicate `\begin{document}` marker added. -/
def valSampleDupBegin : String := valSampleNoEnd ++ "\n\\begin\x7bdocument\x7d"

/-- An environment where every pass succeeds and the artifact exists. -/
def worldOk : CompilerWorld :=
  { passOutcome := fun _ => .completed 0 "" ""
    logAfter := fun _ => none
    writeFault := none
    pdfExists := true
    pdfBytes := [] }

/-- An environment where every pass exits with code 1. -/
def worldPassFail : CompilerWorld :=
  { passOutcome := fun _ => .completed 1 "out" "err!"
    logAfter := fun _ => some "logtext"
    writeFault := none
    pdfExists := false
    pdfBytes := [] }

/-- An environment where every pass times out. -/
def worldTimeout : CompilerWorld :=
  { passOutcome := fun _ => .timedOut
    logAfter := fun _ => none
    writeFault := none
    pdfExists := false
    pdfBytes := [] }

/-! ## Splitting / joining lemmas -/

theorem splitOnPred_ne_nil (p : Char → Bool) (cs : List Char) : splitOnPred p cs ≠ [] := by
  cases cs with
  | nil => simp [splitOnPred]
  | cons c cs =>
    simp only [splitOnPred]
    cases h : splitOnPred p cs with
    | nil => simp
    | cons s rest =>
      by_cases hpc : p c = true <;> simp [hpc]

theorem joinOnChar_splitOnChar (sep : Char) (cs : List Char) :
    joinOnChar sep (splitOnChar sep cs) = cs := by
  induction cs with
  | nil => rfl
  | cons c cs ih =>
    unfold splitOnChar at ih ⊢
    simp only [splitOnPred]
    cases h : splitOnPred (fun x => x = sep) cs with
    | nil => exact absurd h (splitOnPred_ne_nil _ _)
    | cons s rest =>
      rw [h] at ih
      by_cases hc : c = sep
      · simp [hc, joinOnChar, ih]
      · cases rest with
        | nil => simp [hc, joinOnChar] at ih ⊢; simp [ih]
        | cons r rs =>
          simp only [joinOnChar] at ih
          simp [hc, joinOnChar, ih]

theorem joinNL_splitLines (s : String) : joinNL (splitLines s) = s := by
  unfold joinNL splitLines
  rw [List.map_map]
  have h1 : (String.data ∘ String.mk) = id := rfl
  rw [h1, List.map_id, joinOnChar_splitOnChar]

/-! ## Section-parser decomposition lemmas -/

theorem segs_reconstruct (ls : List String) :
    (segs ls).1 ++ (segs ls).2.flatMap (fun b => b.1 :: b.2.2) = ls := by
  induction ls with
  | nil => rfl
  | cons l ls ih =>
    cases h : headingOf l with
    | some nm => simp [segs, h, ih]
    | none => simpa [segs, h] using ih

theorem parseLoop_eq (ls : List String) : ∀ d cur acc,
    parseLoop d cur acc ls =
      blocksFold (flushSection d cur (acc ++ (segs ls).1)) (segs ls).2 := by
  induction ls with
  | nil => intro d cur acc; simp [parseLoop, segs, blocksFold]
  | cons l ls ih =>
    intro d cur acc
    cases h : headingOf l with
    | some nm => simp [parseLoop, segs, h, ih, blocksFold]
    | none =>
      simp only [parseLoop, segs, h, ih]
      simp [List.append_assoc]

theorem parse_resume_sections_eq (text : String) :
    parse_resume_sections text =
      blocksFold (flushSection [] "header" (segs (splitLines text)).1)
        (segs (splitLines text)).2 := by
  unfold parse_resume_sections
  rw [parseLoop_eq]
  simp

/-- C3 (amended): the Section Parser loses no line: the raw pre-strip segments
between recognized heading lines, interleaved with the heading lines in scan
order and rejoined with the original newlines, reconstruct the input exactly;
and the parser's output is precisely the flush, in scan order, of each
non-empty segment (newline-joined and stripped) under the preceding heading's
canonical kind (`header` for the leading segment). -/
theorem parse_resume_sections_no_content_loss (text : String) :
    joinNL ((segs (splitLines text)).1 ++
      (segs (splitLines text)).2.flatMap (fun b => b.1 :: b.2.2)) = text ∧
    parse_resume_sections text =
      blocksFold (flushSection [] "header" (segs (splitLines text)).1)
        (segs (splitLines text)).2 := by
  constructor
  · rw [segs_reconstruct]; exact joinNL_splitLines text
  · exact parse_resume_sections_eq text

/-- C3 counterexample: rejoining the parser's section values alone does not
reconstruct the input — the recognized heading line `Skills` is dropped. -/
theorem parse_resume_sections_rejoin_counterexample :
    joinNL ((parse_resume_sections "a\nSkills\nb").map Prod.snd) ≠ "a\nSkills\nb" := by
  decide

/-- C1 counterexample: for the `academic` member of the style enumeration the
template lookup finds no entry (`KeyError` in the source), so header generation
does not succeed. -/
theorem generate_latex_header_academic_counterexample :
    LATEX_TEMPLATES LaTeXStyle.academic = none ∧
    generate_latex_header ⟨"", "", "", "", "", ""⟩ LaTeXStyle.academic = none :=
  ⟨rfl, rfl⟩

/-- C1 (amended): the style-template lookup and header generation are total
over `modern`, `classic` and `minimal`, but the templates dict has no entry
for `academic`, so header generation fails for it. -/
theorem generate_latex_header_total_except_academic (ci : ContactInfo) :
    (generate_latex_header ci LaTeXStyle.modern).isSome = true ∧
    (generate_latex_header ci LaTeXStyle.classic).isSome = true ∧
    (generate_latex_header ci LaTeXStyle.minimal).isSome = true ∧
    generate_latex_header ci LaTeXStyle.academic = none :=
  ⟨rfl, rfl, rfl, rfl⟩

/-! ## Dict-lookup lemmas and the header-bucket claim -/

theorem lookupD_map_overwrite (d : Dict) (k v k2 : String) (hk : k2 ≠ k) :
    lookupD k2 (d.map (fun p => if p.1 = k then (k, v) else p)) = lookupD k2 d := by
  induction d with
  | nil => rfl
  | cons p d ih =>
    simp only [List.map_cons, lookupD]
    by_cases hp : p.1 = k
    · simp [hp, Ne.symm hk, ih, lookupD]
    · rw [if_neg hp]
      by_cases hp2 : p.1 = k2 <;> simp [lookupD, hp2, ih]

theorem lookupD_append_single (d : Dict) (k v k2 : String) (hk : k2 ≠ k) :
    lookupD k2 (d ++ [(k, v)]) = lookupD k2 d := by
  induction d with
  | nil => simp [lookupD, Ne.symm hk]
  | cons p d ih =>
    by_cases hp2 : p.1 = k2 <;> simp [lookupD, hp2, ih]

theorem lookupD_dictInsert_other (d : Dict) (k v k2 : String) (hk : k2 ≠ k) :
    lookupD k2 (dictInsert d k v) = lookupD k2 d := by
  unfold dictInsert
  split
  · exact lookupD_map_overwrite d k v k2 hk
  · exact lookupD_append_single d k v k2 hk

theorem segs_block_heading (ls : List String) :
    ∀ b ∈ (segs ls).2, headingOf b.1 = some b.2.1 := by
  induction ls with
  | nil => intro b hb; simp [segs] at hb
  | cons l ls ih =>
    intro b hb
    cases h : headingOf l with
    | some nm =>
      simp only [segs, h, List.mem_cons] at hb
      rcases hb with rfl | hb
      · simpa using h
      · exact ih b hb
    | none =>
      simp only [segs, h] at hb
      exact ih b hb

theorem headingOf_names (l nm : String) (h : headingOf l = some nm) :
    nm ∈ ["experience", "skills", "education", "summary", "projects",
      "certifications", "achievements", "publications"] := by
  unfold headingOf at h
  rw [Option.map_eq_some'] at h
  obtain ⟨pr, hfind, rfl⟩ := h
  have hmem : pr ∈ section_patterns := List.mem_of_find?_eq_some hfind
  have h2 : pr.2 ∈ section_patterns.map Prod.snd := List.mem_map_of_mem _ hmem
  simpa [section_patterns] using h2

theorem blocksFold_lookupD_header (bs : List (String × String × List String)) :
    ∀ d, (∀ b ∈ bs, b.2.1 ≠ "header") →
      lookupD "header" (blocksFold d bs) = lookupD "header" d := by
  induction bs with
  | nil => intro d _; rfl
  | cons b bs ih =>
    intro d hb
    simp only [blocksFold]
    rw [ih _ (fun b2 h2 => hb b2 (List.mem_cons_of_mem _ h2))]
    unfold flushSection
    split
    · rfl
    · exact lookupD_dictInsert_other _ _ _ _ (Ne.symm (hb b (List.mem_cons_self _ _)))

/-- C2 (amended): the SectionMap contains the `header` bucket exactly when at
least one line precedes the first recognized heading (always the case when the
input's first line is not a heading), and it then holds those lines joined with
the original newlines and stripped; if the very first line is itself a
recognized heading, no `header` key is ever stored. -/
theorem parse_resume_sections_header_bucket (text : String) :
    ((segs (splitLines text)).1 = [] →
      lookupD "header" (parse_resume_sections text) = none) ∧
    ((segs (splitLines text)).1 ≠ [] →
      lookupD "header" (parse_resume_sections text) =
        some (pyStrip (joinNL (segs (splitLines text)).1))) := by
  have hnames : ∀ b ∈ (segs (splitLines text)).2, b.2.1 ≠ "header" := by
    intro b hb hcontra
    have h2 := headingOf_names _ _ (segs_block_heading _ b hb)
    rw [hcontra] at h2
    exact absurd h2 (by decide)
  rw [parse_resume_sections_eq, blocksFold_lookupD_header _ _ hnames]
  constructor
  · intro h; rw [h]; rfl
  · intro h
    unfold flushSection
    rw [if_neg (by simpa using h)]
    rfl

/-- C2 counterexample: an input whose first line is a recognized heading yields
a SectionMap with no `header` key at all. -/
theorem parse_resume_sections_header_counterexample :
    (parse_resume_sections "Education\nMIT").map Prod.fst = ["education"] ∧
    lookupD "header" (parse_resume_sections "Education\nMIT") = none := by
  decide

/-- C2 witness: with content before the first heading, the `header` bucket is
present and holds exactly that content. -/
theorem parse_resume_sections_header_bucket_witness :
    (segs (splitLines "x\nSkills\ny")).1 ≠ [] ∧
    lookupD "header" (parse_resume_sections "x\nSkills\ny") = some "x" := by
  refine ⟨by decide, ?_⟩
  have h := (parse_resume_sections_header_bucket "x\nSkills\ny").2 (by decide)
  rw [h]
  decide

set_option maxRecDepth 4000

/-- C4: the Structural Validator's `is_valid` is true iff none of the three
required elements (class declaration, document begin, document end) is
missing — warnings never affect it; a string missing only the document-end
marker yields `is_valid = false` with exactly one missing-element entry
describing the end marker, and adding a duplicate begin marker additionally
produces the duplicate-begin warning without altering `is_valid` or the
missing elements. -/
theorem validate_latex_structure_is_valid :
    (∀ s : String,
      ((validate_latex_structure s).is_valid = true ↔
        (validate_latex_structure s).missing_elements = []) ∧
      ((validate_latex_structure s).is_valid = true ↔
        (hasDocclass s = true ∧ hasBeginDoc s = true ∧ hasEndDoc s = true))) ∧
    (validate_latex_structure valSampleNoEnd).is_valid = false ∧
    (validate_latex_structure valSampleNoEnd).missing_elements =
      ["Missing Document end (\\\\end\x7bdocument\x7d)"] ∧
    "Multiple document beginnings detected" ∉
      (validate_latex_structure valSampleNoEnd).warnings ∧
    (validate_latex_structure valSampleDupBegin).is_valid = false ∧
    (validate_latex_structure valSampleDupBegin).missing_elements =
      (validate_latex_structure valSampleNoEnd).missing_elements ∧
    "Multiple document beginnings detected" ∈
      (validate_latex_structure valSampleDupBegin).warnings := by
  refine ⟨?_, by decide, by decide, by decide, by decide, by decide, by decide⟩
  intro s
  constructor
  · unfold validate_latex_structure
    simp [List.isEmpty_iff]
  · unfold validate_latex_structure
    by_cases h1 : hasDocclass s <;> by_cases h2 : hasBeginDoc s <;>
      by_cases h3 : hasEndDoc s <;> simp [h1, h2, h3, List.isEmpty_iff]

/-- C5: when validation is requested and the Structural Validator reports the
source invalid, the Compiler Driver returns a failure result whose error
message carries the missing-element summary, and no compiler invocation
occurs (the trace holds no pass event, and no scratch area is even created). -/
theorem compile_latex_validation_failure (w : CompilerWorld) (content : String)
    (h : (validate_latex_structure content).is_valid = false) :
    (compile_latex w content true).1 =
      { success := false, tex_base64 := "", pdf_base64 := none, log_output := "",
        error_message := some ("Invalid LaTeX structure: " ++
          String.intercalate "; " (validate_latex_structure content).missing_elements) } ∧
    (compile_latex w content true).2 = [Ev.validated] ∧
    ∀ n, Ev.passRun n ∉ (compile_latex w content true).2 := by
  refine ⟨?_, ?_, ?_⟩ <;> simp [compile_latex, h]

theorem runPasses_events (w : CompilerWorld) : ∀ (ns : List Nat) (logC : String)
    (e : Ev), e ∈ (runPasses w ns logC).2 → ∃ n, e = Ev.passRun n := by
  intro ns
  induction ns with
  | nil => intro logC e he; simp [runPasses] at he
  | cons n ns ih =>
    intro logC e he
    simp only [runPasses] at he
    cases hp : w.passOutcome n <;> rw [hp] at he
    case completed rc out err =>
      by_cases hrc : rc ≠ 0
      · simp [hrc] at he; exact ⟨n, he⟩
      · simp [hrc] at he
        rcases he with rfl | he
        · exact ⟨n, rfl⟩
        · exact ih _ e he
    case timedOut => simp at he; exact ⟨n, he⟩
    case faulted m => simp at he; exact ⟨n, he⟩

theorem runPasses_no_scratch (w : CompilerWorld) (ns : List Nat) (logC : String) :
    (runPasses w ns logC).2.count Ev.scratchCreated = 0 ∧
    (runPasses w ns logC).2.count Ev.scratchRemoved = 0 := by
  constructor <;>
    · rw [List.count_eq_zero]
      intro hmem
      obtain ⟨n, h⟩ := runPasses_events w ns logC _ hmem
      cases h

/-- C6: when a compiler pass exits non-zero the driver stops immediately
(pass 2 does not run after a failed pass 1) and returns a failure result
carrying the base64 source encoding, the captured log, and an error message
identifying the failed pass and the process's stderr. -/
theorem compile_latex_pass_failure :
    (∀ (w : CompilerWorld) (content : String) (b : Bool) (rc : Int) (out err : String),
      (b = true → (validate_latex_structure content).is_valid = true) →
      w.writeFault = none →
      w.passOutcome 1 = .completed rc out err → rc ≠ 0 →
      (compile_latex w content b).1 =
        { success := false, tex_base64 := b64OfString content, pdf_base64 := none,
          log_output := (w.logAfter 1).getD "",
          error_message := some ("LaTeX compilation error on pass 1: " ++ err) } ∧
      Ev.passRun 1 ∈ (compile_latex w content b).2 ∧
      Ev.passRun 2 ∉ (compile_latex w content b).2) ∧
    (∀ (w : CompilerWorld) (content : String) (b : Bool) (out1 err1 : String)
        (rc : Int) (out err : String),
      (b = true → (validate_latex_structure content).is_valid = true) →
      w.writeFault = none →
      w.passOutcome 1 = .completed 0 out1 err1 →
      w.passOutcome 2 = .completed rc out err → rc ≠ 0 →
      (compile_latex w content b).1 =
        { success := false, tex_base64 := b64OfString content, pdf_base64 := none,
          log_output := (w.logAfter 2).getD ((w.logAfter 1).getD ""),
          error_message := some ("LaTeX compilation error on pass 2: " ++ err) } ∧
      Ev.passRun 1 ∈ (compile_latex w content b).2 ∧
      Ev.passRun 2 ∈ (compile_latex w content b).2) := by
  constructor
  · intro w content b rc out err hb hw h1 hrc
    cases b with
    | false =>
      refine ⟨?_, ?_, ?_⟩ <;> simp [compile_latex, hw, runPasses, h1, hrc]
      congr 1
    | true =>
      refine ⟨?_, ?_, ?_⟩ <;> simp [compile_latex, hb rfl, hw, runPasses, h1, hrc]
      congr 1
  · intro w content b out1 err1 rc out err hb hw h1 h2 hrc
    cases b with
    | false =>
      refine ⟨?_, ?_, ?_⟩ <;> simp [compile_latex, hw, runPasses, h1, h2, hrc]
      congr 1
    | true =>
      refine ⟨?_, ?_, ?_⟩ <;> simp [compile_latex, hb rfl, hw, runPasses, h1, h2, hrc]
      congr 1

theorem compile_latex_trace_shape (w : CompilerWorld) (content : String) (b : Bool) :
    (compile_latex w content b).2 = (if b then [Ev.validated] else []) ∨
    (compile_latex w content b).2 =
      (if b then [Ev.validated] else []) ++ [Ev.scratchCreated, Ev.scratchRemoved] ∨
    ∃ pevs, (∀ e ∈ pevs, ∃ n, e = Ev.passRun n) ∧
      (compile_latex w content b).2 =
        (if b then [Ev.validated] else []) ++
          Ev.scratchCreated :: pevs ++ [Ev.scratchRemoved] := by
  by_cases hv : (b && !(validate_latex_structure content).is_valid) = true
  · exact Or.inl (by simp [compile_latex, hv])
  · right
    cases hwf : w.writeFault with
    | some m => exact Or.inl (by simp [compile_latex, hv, hwf])
    | none =>
      right
      refine ⟨(runPasses w [1, 2] "").2, runPasses_events w [1, 2] "", ?_⟩
      cases hpr : (runPasses w [1, 2] "").1 <;> by_cases hp : w.pdfExists = true <;>
        simp [compile_latex, hv, hwf, hpr, hp]

/-- C7: a timeout during either pass is caught and reported as a failure
result with the timeout-specific message, and on every exit path — validation
failure, write fault, pass failure, timeout, unexpected fault, or success —
the scratch area is removed exactly as many times as it is created. -/
theorem compile_latex_timeout_and_cleanup :
    (∀ (w : CompilerWorld) (content : String) (b : Bool),
      (b = true → (validate_latex_structure content).is_valid = true) →
      w.writeFault = none →
      w.passOutcome 1 = .timedOut →
      (compile_latex w content b).1.success = false ∧
      (compile_latex w content b).1.tex_base64 = b64OfString content ∧
      (compile_latex w content b).1.error_message =
        some "LaTeX compilation timed out after 60 seconds") ∧
    (∀ (w : CompilerWorld) (content : String) (b : Bool) (out1 err1 : String),
      (b = true → (validate_latex_structure content).is_valid = true) →
      w.writeFault = none →
      w.passOutcome 1 = .completed 0 out1 err1 →
      w.passOutcome 2 = .timedOut →
      (compile_latex w content b).1.success = false ∧
      (compile_latex w content b).1.error_message =
        some "LaTeX compilation timed out after 60 seconds") ∧
    (∀ (w : CompilerWorld) (content : String) (b : Bool),
      (compile_latex w content b).2.count Ev.scratchCreated =
        (compile_latex w content b).2.count Ev.scratchRemoved) := by
  refine ⟨?_, ?_, ?_⟩
  · intro w content b hb hw h1
    cases b with
    | false => refine ⟨?_, ?_, ?_⟩ <;> simp [compile_latex, hw, runPasses, h1]
    | true => refine ⟨?_, ?_, ?_⟩ <;> simp [compile_latex, hb rfl, hw, runPasses, h1]
  · intro w content b out1 err1 hb hw h1 h2
    cases b with
    | false => refine ⟨?_, ?_⟩ <;> simp [compile_latex, hw, runPasses, h1, h2]
    | true => refine ⟨?_, ?_⟩ <;> simp [compile_latex, hb rfl, hw, runPasses, h1, h2]
  · intro w content b
    rcases compile_latex_trace_shape w content b with h | h | ⟨pevs, hpe, h⟩ <;> rw [h]
    · cases b <;> decide
    · cases b <;> decide
    · have hc1 : pevs.count Ev.scratchCreated = 0 := by
        rw [List.count_eq_zero]
        intro hm
        obtain ⟨n, hn⟩ := hpe _ hm
        cases hn
      have hc2 : pevs.count Ev.scratchRemoved = 0 := by
        rw [List.count_eq_zero]
        intro hm
        obtain ⟨n, hn⟩ := hpe _ hm
        cases hn
      cases b <;> simp [List.count_append, List.count_cons, hc1, hc2]

/-- C5 witness -/
theorem compile_latex_validation_failure_witness :
    (validate_latex_structure "hello").is_valid = false ∧
    (compile_latex worldOk "hello" true).1.success = false ∧
    (compile_latex worldOk "hello" true).2 = [Ev.validated] := by
  refine ⟨by decide, ?_, (compile_latex_validation_failure worldOk "hello" (by decide)).2.1⟩
  rw [(compile_latex_validation_failure worldOk "hello" (by decide)).1]

/-- C6 witness -/
theorem compile_latex_pass_failure_witness :
    (compile_latex worldPassFail "x" false).1 =
      { success := false, tex_base64 := "eA==", pdf_base64 := none,
        log_output := "logtext",
        error_message := some "LaTeX compilation error on pass 1: err!" } ∧
    Ev.passRun 1 ∈ (compile_latex worldPassFail "x" false).2 ∧
    Ev.passRun 2 ∉ (compile_latex worldPassFail "x" false).2 := by
  have h := compile_latex_pass_failure.1 worldPassFail "x" false 1 "out" "err!"
    (fun hh => nomatch hh) rfl rfl (by decide)
  refine ⟨?_, h.2.1, h.2.2⟩
  rw [h.1]
  decide

/-- C7 witness -/
theorem compile_latex_timeout_witness :
    (compile_latex worldTimeout "x" false).1.success = false ∧
    (compile_latex worldTimeout "x" false).1.error_message =
      some "LaTeX compilation timed out after 60 seconds" ∧
    (compile_latex worldTimeout "x" false).2.count Ev.scratchCreated =
      (compile_latex worldTimeout "x" false).2.count Ev.scratchRemoved := by
  have h := compile_latex_timeout_and_cleanup.1 worldTimeout "x" false
    (fun hh => nomatch hh) rfl rfl
  exact ⟨h.1, h.2.2, compile_latex_timeout_and_cleanup.2.2 worldTimeout "x" false⟩

/-- C8: the Contact Extractor is a function of the first 10 lines only — any
two inputs agreeing on their first 10 lines yield equal `ContactInfo`. -/
theorem extract_contact_info_first_ten (t1 t2 : String)
    (h : (splitLines t1).take 10 = (splitLines t2).take 10) :
    extract_contact_info t1 = extract_contact_info t2 := by
  unfold extract_contact_info
  rw [h]

/-- C8 witness: two texts that agree on the first 10 lines but differ in line
11 (which holds contact data) extract identically, and the line-11 email is
ignored. -/
theorem extract_contact_info_first_ten_witness :
    (splitLines "John\n\n\n\n\n\n\n\n\n\nsecret@mail.com").take 10 =
      (splitLines "John\n\n\n\n\n\n\n\n\n\nrich@data.org github.com/user").take 10 ∧
    extract_contact_info "John\n\n\n\n\n\n\n\n\n\nsecret@mail.com" =
      extract_contact_info "John\n\n\n\n\n\n\n\n\n\nrich@data.org github.com/user" ∧
    (extract_contact_info "John\n\n\n\n\n\n\n\n\n\nsecret@mail.com").email = "" := by
  refine ⟨by decide, extract_contact_info_first_ten _ _ (by decide), by decide⟩

theorem mem_dropWhile_not (p : Char → Bool) (c : Char) (hc : p c = false) (cs : List Char) :
    c ∈ cs.dropWhile p ↔ c ∈ cs := by
  induction cs with
  | nil => simp
  | cons a t ih =>
    rw [List.dropWhile_cons]
    by_cases ha : p a = true
    · simp only [ha, if_true, ih, List.mem_cons]
      constructor
      · exact Or.inr
      · rintro (rfl | h)
        · rw [ha] at hc; cases hc
        · exact h
    · simp [ha]

theorem mem_pyStripL (c : Char) (hc : pyIsSpace c = false) (cs : List Char) :
    c ∈ pyStripL cs ↔ c ∈ cs := by
  unfold pyStripL
  rw [List.mem_reverse, mem_dropWhile_not _ _ hc, List.mem_reverse, mem_dropWhile_not _ _ hc]

theorem isSubstrL_singleton (c : Char) (cs : List Char) :
    isSubstrL [c] cs = true ↔ c ∈ cs := by
  induction cs with
  | nil => simp [isSubstrL, isPrefixL]
  | cons a t ih =>
    simp only [isSubstrL, isPrefixL, Bool.or_eq_true, ih, List.mem_cons,
      Bool.and_eq_true, decide_eq_true_eq]
    constructor
    · rintro (⟨rfl, -⟩ | h)
      · exact Or.inl rfl
      · exact Or.inr h
    · rintro (rfl | h)
      · exact Or.inl ⟨rfl, trivial⟩
      · exact Or.inr h

theorem splitOnPred_no_match (p : Char → Bool) (cs : List Char)
    (h : ∀ c ∈ cs, p c = false) : splitOnPred p cs = [cs] := by
  induction cs with
  | nil => rfl
  | cons c cs ih =>
    simp only [splitOnPred]
    rw [ih (fun c2 h2 => h c2 (List.mem_cons_of_mem _ h2))]
    simp [h c (List.mem_cons_self _ _)]

theorem splitLines_single (s : String) (h : '\n' ∉ s.data) : splitLines s = [s] := by
  unfold splitLines splitOnChar
  rw [splitOnPred_no_match]
  · rfl
  · intro c hc
    simp only [decide_eq_false_iff_not]
    exact fun hcn => h (hcn ▸ hc)

/-- C9 (amended): for a section whose entire content is a single line with at
least one comma and no colon, the Section Content Formatter splits on commas,
strips each token, drops empty tokens, and joins the remaining tokens each
emphasized with `", "` and no trailing separator; otherwise it joins the
stripped non-empty lines with the bullet separator. -/
theorem format_skills_section_spec :
    (∀ content : String, '\n' ∉ content.data → ',' ∈ content.data → ':' ∉ content.data →
      format_skills_section content =
        String.intercalate ", "
          ((((splitOnChar ',' (pyStrip content).data).map
              (fun t => String.mk (pyStripL t))).filter (fun s => s ≠ "")).map emphTok)) ∧
    (∀ content : String,
      (match cleanLines content with
        | [l] => !(containsSub l "," && !containsSub l ":")
        | _ => true) = true →
      format_skills_section content =
        String.intercalate " $\\bullet$ " (cleanLines content)) := by
  constructor
  · intro content h1 h2 h3
    have hcomma : ',' ∈ (pyStrip content).data := by
      rw [show (pyStrip content).data = pyStripL content.data from rfl,
        mem_pyStripL _ (by decide)]
      exact h2
    have hcolon : ':' ∉ (pyStrip content).data := by
      rw [show (pyStrip content).data = pyStripL content.data from rfl,
        mem_pyStripL _ (by decide)]
      exact h3
    have hne : pyStrip content ≠ "" := by
      intro hne0
      rw [hne0] at hcomma
      simp at hcomma
    have hclean : cleanLines content = [pyStrip content] := by
      unfold cleanLines
      rw [splitLines_single content h1]
      simp [hne]
    have hcond : (containsSub (pyStrip content) "," &&
        !containsSub (pyStrip content) ":") = true := by
      have e1 : containsSub (pyStrip content) "," = true :=
        (isSubstrL_singleton ',' _).mpr hcomma
      have e2 : containsSub (pyStrip content) ":" = false :=
        Bool.eq_false_iff.mpr (fun ht => hcolon ((isSubstrL_singleton ':' _).mp ht))
      rw [e1, e2]
      rfl
    simp only [format_skills_section, hclean, hcond, if_true]
  · intro content hcond
    cases hclean : cleanLines content with
    | nil => simp [format_skills_section, hclean]
    | cons l ls =>
      cases ls with
      | nil =>
        rw [hclean] at hcond
        simp only [Bool.not_eq_true'] at hcond
        simp [format_skills_section, hclean, hcond]
      | cons l2 ls2 => simp [format_skills_section, hclean]

/-- C9 counterexample: on `"a,,b"` the empty middle token is dropped, so the
output is not all the comma-split tokens each emphasized. -/
theorem format_skills_section_counterexample :
    format_skills_section "a,,b" = "\\textbf\x7ba\x7d, \\textbf\x7bb\x7d" ∧
    format_skills_section "a,,b" ≠
      String.intercalate ", "
        ((splitOnChar ',' "a,,b".data).map (fun t => emphTok (String.mk (pyStripL t)))) := by
  constructor <;> decide

/-- C9 witness: `"Python, JavaScript, SQL"` yields exactly three emphasized
tokens joined by `", "` with no trailing separator. -/
theorem format_skills_section_spec_witness :
    format_skills_section "Python, JavaScript, SQL" =
      "\\textbf\x7bPython\x7d, \\textbf\x7bJavaScript\x7d, \\textbf\x7bSQL\x7d" := by
  rw [format_skills_section_spec.1 "Python, JavaScript, SQL" (by decide) (by decide)
    (by decide)]
  decide

theorem scanBalT_append (xs ys : List GenLine) : ∀ d,
    scanBalT (xs ++ ys) d = (scanBalT xs d).bind (fun d2 => scanBalT ys d2) := by
  induction xs with
  | nil => intro d; rfl
  | cons g xs ih =>
    intro d
    cases g with
    | openItemize => simp [scanBalT, ih]
    | closeItemize =>
      simp only [List.cons_append, scanBalT]
      by_cases hd : d = 0
      · simp [hd]
      · simp [hd, ih]
    | item s => simp [scanBalT, ih]
    | plain s => simp [scanBalT, ih]

theorem genericStepT_inv (st : List GenLine × Bool) (line : String)
    (h1 : scanBalT st.1 0 = some (flagNat st.2))
    (h2 : st.1.count GenLine.openItemize =
      st.1.count GenLine.closeItemize + flagNat st.2) :
    scanBalT (genericStepT st line).1 0 = some (flagNat (genericStepT st line).2) ∧
    (genericStepT st line).1.count GenLine.openItemize =
      (genericStepT st line).1.count GenLine.closeItemize +
        flagNat (genericStepT st line).2 := by
  obtain ⟨out, flag⟩ := st
  simp only [flagNat] at h1 h2
  unfold genericStepT
  by_cases hb : (isPrefixL ['•'] (pyStripL line.data) ||
      isPrefixL ['-'] (pyStripL line.data)) = true
  · cases flag <;>
      simp [hb, scanBalT_append, h1, h2, scanBalT, flagNat,
        List.count_append, List.count_cons]
  · by_cases hl : pyStripL line.data = [] <;> cases flag <;>
      simp [hb, hl, isPrefixL, scanBalT_append, h1, h2, scanBalT, flagNat,
        List.count_append, List.count_cons]

theorem foldl_genericStepT_inv (lines : List String) : ∀ st : List GenLine × Bool,
    scanBalT st.1 0 = some (flagNat st.2) →
    st.1.count GenLine.openItemize = st.1.count GenLine.closeItemize + flagNat st.2 →
    scanBalT (lines.foldl genericStepT st).1 0 =
      some (flagNat (lines.foldl genericStepT st).2) ∧
    (lines.foldl genericStepT st).1.count GenLine.openItemize =
      (lines.foldl genericStepT st).1.count GenLine.closeItemize +
        flagNat (lines.foldl genericStepT st).2 := by
  induction lines with
  | nil => intro st h1 h2; exact ⟨h1, h2⟩
  | cons l lines ih =>
    intro st h1 h2
    have h := genericStepT_inv st l h1 h2
    exact ih _ h.1 h.2

theorem genericStepT_render (st : List GenLine × Bool) (line : String) :
    genericStep (st.1.map renderGenLine, st.2) line =
      ((genericStepT st line).1.map renderGenLine, (genericStepT st line).2) := by
  obtain ⟨out, flag⟩ := st
  unfold genericStep genericStepT
  by_cases hb : (isPrefixL ['•'] (pyStripL line.data) ||
      isPrefixL ['-'] (pyStripL line.data)) = true
  · cases flag <;>
      simp [hb, renderGenLine, List.map_append, itemizeOpenStr, itemizeCloseStr]
  · by_cases hl : pyStripL line.data = [] <;> cases flag <;>
      simp [hb, hl, isPrefixL, renderGenLine, List.map_append, itemizeOpenStr,
        itemizeCloseStr]

theorem foldl_genericStepT_render (lines : List String) : ∀ st : List GenLine × Bool,
    lines.foldl genericStep (st.1.map renderGenLine, st.2) =
      ((lines.foldl genericStepT st).1.map renderGenLine,
        (lines.foldl genericStepT st).2) := by
  induction lines with
  | nil => intro st; rfl
  | cons l lines ih =>
    intro st
    rw [List.foldl_cons, List.foldl_cons, genericStepT_render]
    exact ih _

/-- C10: the generic section formatter's output has balanced list blocks: the
tagged rendering equals the real output, the numbers of emitted list-begin
and list-end directives are equal, and a depth scan never closes an unopened
block and ends at depth 0 (every opened block is closed by end of output). -/
theorem format_generic_section_balanced (content : String) :
    (genericTagged content).map renderGenLine = genericOutLines content ∧
    (genericTagged content).count GenLine.openItemize =
      (genericTagged content).count GenLine.closeItemize ∧
    scanBalT (genericTagged content) 0 = some 0 := by
  have hinv := foldl_genericStepT_inv (splitLines content) ([], false) rfl rfl
  have hr : List.foldl genericStep ([], false) (splitLines content) =
      ((List.foldl genericStepT ([], false) (splitLines content)).1.map renderGenLine,
        (List.foldl genericStepT ([], false) (splitLines content)).2) := by
    simpa using foldl_genericStepT_render (splitLines content) ([], false)
  have h1 := hinv.1
  have h2 := hinv.2
  refine ⟨?_, ?_, ?_⟩
  · simp only [genericTagged, genericOutLines, hr]
    cases hf : (List.foldl genericStepT ([], false) (splitLines content)).2 <;>
      simp [hf, List.map_append, renderGenLine]
  · simp only [genericTagged]
    cases hf : (List.foldl genericStepT ([], false) (splitLines content)).2 <;>
      rw [hf] at h2 <;> simp [flagNat] at h2 <;>
      simp [hf, List.count_append, List.count_cons, h2]
  · simp only [genericTagged]
    cases hf : (List.foldl genericStepT ([], false) (splitLines content)).2 <;>
      rw [hf] at h1 <;> simp [flagNat] at h1 <;>
      simp [hf, scanBalT_append, h1, scanBalT]

end Beetune
